import Mathlib

/-!
Shallow embedding of `django_unicorn/views/request.py`: the multipart path-tree
builder (`parse_multipart_data`), the checksum validator
(`ComponentRequest.validate_checksum`) and the constructor / action classifier
(`ComponentRequest.__init__`).

Python dictionaries are modelled as insertion-ordered association lists,
JSON-like values as the inductive `JValue`, Python exceptions as `Except`
results.  The external collaborators (`loads`, `generate_checksum`,
`parse_call_method_name`) are parameters of the embedded functions, matching
the spec's treatment of them as opaque external functions.
-/

namespace Unicorn

/-- JSON-like values flowing through the request pipeline.  Uploaded files are
opaque blobs, identified here by a numeric handle. -/
inductive JValue where
  | null
  | bool (b : Bool)
  | num (n : Int)
  | str (s : String)
  | list (xs : List JValue)
  | obj (kvs : List (String × JValue))
  | file (fid : Nat)

/-- A Python dict with string keys, in insertion order. -/
abbrev Dict := List (String × JValue)

/-- Python `d.get(key)`: the first binding of `key`, if any. -/
def dictGet : Dict → String → Option JValue
  | [], _ => none
  | (k, v) :: rest, key => if k = key then some v else dictGet rest key

/-- Python `d[key] = value`: replace an existing binding in place, otherwise
append a new one (Python dicts keep first-insertion order). -/
def dictSet : Dict → String → JValue → Dict
  | [], key, value => [(key, value)]
  | (k, v) :: rest, key, value =>
    if k = key then (k, value) :: rest else (k, v) :: dictSet rest key value

/-- Python truthiness (`bool(v)`) of a JSON-like value, negated. -/
def jFalsy : JValue → Bool
  | .null => true
  | .bool b => !b
  | .num n => n == 0
  | .str s => s.toList.isEmpty
  | .list xs => xs.isEmpty
  | .obj kvs => kvs.isEmpty
  | .file _ => false

/-- Python `not d.get(key)`: an absent binding is falsy. -/
def jFalsyOpt : Option JValue → Bool
  | none => true
  | some v => jFalsy v

/-- Python `s.split(sep)` for a one-character separator: never returns an empty
list, keeps empty segments. -/
def splitChar (sep : Char) : List Char → List (List Char)
  | [] => [[]]
  | c :: rest =>
    match splitChar sep rest with
    | [] => [[c]]
    | g :: gs => if c == sep then [] :: g :: gs else (c :: g) :: gs

/-- Python `s.startswith(p)`, first argument being the pattern `p`. -/
def hasPrefixChars : List Char → List Char → Bool
  | [], _ => true
  | _ :: _, [] => false
  | p :: ps, c :: cs => p == c && hasPrefixChars ps cs

/-- Python `s.index(c)`: position of the first occurrence (callers only use it
when the character occurs, where `findIdx` agrees with Python). -/
def charIndex (l : List Char) (c : Char) : Nat :=
  l.findIdx (fun x => x == c)

/-- Python slice `s[a:b]`, clamped like Python slicing. -/
def sliceChars (l : List Char) (a b : Nat) : List Char :=
  (l.drop a).take (b - a)

def isWsChar (c : Char) : Bool :=
  c == ' ' || c == '\t' || c == '\n' || c == '\r'

def trimChars (l : List Char) : List Char :=
  ((l.dropWhile isWsChar).reverse.dropWhile isWsChar).reverse

/-- Python `int(s)`: optional surrounding whitespace, optional sign, at least
one decimal digit; anything else raises `ValueError` (here: `none`). -/
def pyIntChars (l : List Char) : Option Int :=
  let t := trimChars l
  let neg := hasPrefixChars ['-'] t
  let digits := if hasPrefixChars ['-'] t || hasPrefixChars ['+'] t then t.drop 1 else t
  if digits.isEmpty then none
  else if digits.all Char.isDigit then
    let n : Nat := digits.foldl (fun acc c => acc * 10 + (c.toNat - 48)) 0
    some (if neg then -(n : Int) else (n : Int))
  else none

/-- Python `while len(xs) <= index: xs.append(pad)`, as a closed form. -/
def extendTo (xs : List JValue) (pad : JValue) (index : Int) : List JValue :=
  if index < 0 then xs
  else xs ++ List.replicate (index.toNat + 1 - xs.length) pad

/-- Python `xs[index]` on a list, with negative-index wraparound;
`none` is an `IndexError`. -/
def pyGet (xs : List JValue) (index : Int) : Option JValue :=
  let i := if index < 0 then (xs.length : Int) + index else index
  if i < 0 then none else xs[i.toNat]?

/-- Python `xs[index] = v` on a list, with negative-index wraparound;
`none` is an `IndexError`. -/
def pySet (xs : List JValue) (index : Int) (v : JValue) : Option (List JValue) :=
  let i := if index < 0 then (xs.length : Int) + index else index
  if i < 0 then none
  else if i.toNat < xs.length then some (xs.set i.toNat v) else none

/-- Python exceptions that can escape the parsing helpers.  Exceptions whose
precise class the claims never distinguish (TypeError, AttributeError,
KeyError, IndexError raised when a path collides with a non-dict / non-list
value) are collapsed into `typeError`. -/
inductive PyErr where
  | jsonDecodeError
  | valueError
  | typeError
deriving DecidableEq

/-- Does the segment contain both an opening and a closing bracket
(the `"[" in part and "]" in part` test)? -/
def segHasBrackets (part : List Char) : Bool :=
  part.contains '[' && part.contains ']'

/-- The text before the first `[` (`part[:part.index("[")]`). -/
def segBase (part : List Char) : String :=
  (part.take (charIndex part '[')).asString

/-- Python `int(part[part.index("[") + 1:part.index("]")])`. -/
def segIndex (part : List Char) : Option Int :=
  pyIntChars (sliceChars part (charIndex part '[' + 1) (charIndex part ']'))

/-- The per-key descent of the POST pass of `parse_multipart_data`
(request.py lines 28-56): walk the dotted segments, materialising lists for
`name[index]` segments (padding with `{}` placeholders) and dicts for plain
segments, then assign `value` at the final segment (padding a final bracketed
segment with `None` placeholders). -/
def assignPath (value : JValue) : List (List Char) → Dict → Except PyErr Dict
  | [], _ => .error .typeError
  | [finalKey], current =>
    if segHasBrackets finalKey then
      match segIndex finalKey with
      | none => .error .valueError
      | some index =>
        match (dictGet current (segBase finalKey)).getD (.list []) with
        | .list xs =>
          match pySet (extendTo xs .null index) index value with
          | none => .error .typeError
          | some ys => .ok (dictSet current (segBase finalKey) (.list ys))
        | _ => .error .typeError
    else
      .ok (dictSet current finalKey.asString value)
  | part :: rest, current =>
    if segHasBrackets part then
      match segIndex part with
      | none => .error .valueError
      | some index =>
        match (dictGet current (segBase part)).getD (.list []) with
        | .list xs =>
          let ys := extendTo xs (.obj []) index
          match pyGet ys index with
          | some (.obj child) =>
            match assignPath value rest child with
            | .error e => .error e
            | .ok child2 =>
              match pySet ys index (.obj child2) with
              | none => .error .typeError
              | some zs => .ok (dictSet current (segBase part) (.list zs))
          | _ => .error .typeError
        | _ => .error .typeError
    else
      match (dictGet current part.asString).getD (.obj []) with
      | .obj child =>
        match assignPath value rest child with
        | .error e => .error e
        | .ok child2 => .ok (dictSet current part.asString (.obj child2))
      | _ => .error .typeError

/-- One iteration of the POST loop of `parse_multipart_data`
(request.py lines 22-62). `loads` is the external JSON decoder. -/
def postStep (loads : String → Except Unit JValue) (data : Dict)
    (kv : String × String) : Except PyErr Dict :=
  if hasPrefixChars "data.".toList kv.1.toList then
    assignPath (.str kv.2) (splitChar '.' (kv.1.toList.drop 5)) data
  else if kv.1 = "actionQueue" then
    match loads kv.2 with
    | .error _ => .error .jsonDecodeError
    | .ok v => .ok (dictSet data kv.1 v)
  else
    .ok (dictSet data kv.1 (.str kv.2))

/-- The per-key descent of the FILES pass (request.py lines 68-73): plain
dotted segments only, creating `{}` placeholders for missing intermediates. -/
def filesDescend (value : JValue) : List (List Char) → Dict → Except PyErr Dict
  | [], _ => .error .typeError
  | [finalKey], current => .ok (dictSet current finalKey.asString value)
  | part :: rest, current =>
    match (dictGet current part.asString).getD (.obj []) with
    | .obj child =>
      match filesDescend value rest child with
      | .error e => .error e
      | .ok child2 => .ok (dictSet current part.asString (.obj child2))
    | _ => .error .typeError

/-- One iteration of the FILES loop of `parse_multipart_data`
(request.py lines 65-80): a single file is stored as a scalar, several files
as the list itself; keys without the `data.` prefix are skipped. -/
def filesStep (data : Dict) (kv : String × List Nat) : Except PyErr Dict :=
  if hasPrefixChars "data.".toList kv.1.toList then
    let value := match kv.2 with
      | [f] => JValue.file f
      | fs => JValue.list (fs.map .file)
    filesDescend value (splitChar '.' (kv.1.toList.drop 5)) data
  else .ok data

/-- `parse_multipart_data(request)` (request.py lines 12-82): fold the POST
pass over the form fields, then the FILES pass over the file fields. -/
def parse_multipart_data (loads : String → Except Unit JValue)
    (post : List (String × String)) (files : List (String × List Nat)) :
    Except PyErr Dict :=
  match post.foldlM (postStep loads) ([] : Dict) with
  | .error e => .error e
  | .ok d => files.foldlM filesStep d

/-- Errors escaping `ComponentRequest.__init__`: the repackaged decode error,
Python `AssertionError`s from the validation checks, and uncaught Python
exceptions from the helpers. -/
inductive UErr where
  | unicornViewError (msg : String)
  | assertionError (msg : String)
  | pyError (e : PyErr)
deriving DecidableEq

/-- Same exception class (the only distinction a caller can make without
parsing messages). -/
def UErr.sameKind : UErr → UErr → Bool
  | .unicornViewError _, .unicornViewError _ => true
  | .assertionError _, .assertionError _ => true
  | .pyError _, .pyError _ => true
  | _, _ => false

/-- The classified action variants of `views/action.py`; `generic` is the base
`Action` class used for unrecognised types.  Each carries the raw
`action_data` entry. -/
inductive Action where
  | syncInput (action_data : JValue)
  | callMethod (action_data : JValue)
  | refresh (action_data : JValue)
  | reset (action_data : JValue)
  | toggle (action_data : JValue)
  | generic (action_data : JValue)

/-- Classification of one `actionQueue` entry (request.py lines 146-165).
`parse` is the external `parse_call_method_name`, restricted to its first
component (the bare method name). -/
def classifyAction (parse : String → String) (action_data : JValue) :
    Except UErr Action :=
  match action_data with
  | .obj kvs =>
    match dictGet kvs "type" with
    | some (.str s) =>
      if s = "syncInput" then .ok (.syncInput action_data)
      else if s = "callMethod" then
        match (dictGet kvs "payload").getD (.obj []) with
        | .obj pkvs =>
          match (dictGet pkvs "name").getD (.str "") with
          | .str name =>
            let method_name := parse name
            if method_name = "$refresh" then .ok (.refresh action_data)
            else if method_name = "$reset" then .ok (.reset action_data)
            else if method_name = "$toggle" then .ok (.toggle action_data)
            else .ok (.callMethod action_data)
          | _ => .error (.pyError .typeError)
        | _ => .error (.pyError .typeError)
      else .ok (.generic action_data)
    | _ => .ok (.generic action_data)
  | _ => .error (.pyError .typeError)

/-- The `for action_data in self.body.get("actionQueue", [])` loop: classify
each entry in order, aborting on the first exception. -/
def classifyQueue (parse : String → String) :
    List JValue → Except UErr (List Action)
  | [] => .ok []
  | a :: rest =>
    match classifyAction parse a with
    | .error e => .error e
    | .ok act =>
      match classifyQueue parse rest with
      | .error e => .error e
      | .ok acts => .ok (act :: acts)

/-- `ComponentRequest.validate_checksum` (request.py lines 173-188).
`digest` is the external `generate_checksum`. -/
def validate_checksum (digest : JValue → String) (body : Dict)
    (data : JValue) : Except UErr Unit :=
  match dictGet body "checksum" with
  | none => .error (.assertionError "Missing checksum")
  | some v =>
    if jFalsy v then .error (.assertionError "Missing checksum")
    else
      match v with
      | .str s =>
        if s = digest data then .ok ()
        else .error (.assertionError "Checksum does not match")
      | _ => .error (.assertionError "Checksum does not match")

/-- The fields a successfully constructed `ComponentRequest` exposes. -/
structure CompReq where
  body : Dict
  name : String
  data : JValue
  id : JValue
  epoch : JValue
  key : JValue
  hash : JValue
  action_queue : List Action

/-- `ComponentRequest.__init__` after the body has been decoded
(request.py lines 118-165): the falsy-body check, the ordered required-field
checks, checksum validation, then action classification. -/
def componentRequestBody (digest : JValue → String) (parse : String → String)
    (body : JValue) (component_name : String) : Except UErr CompReq :=
  if jFalsy body then .error (.assertionError "Invalid body")
  else if component_name = "" then .error (.assertionError "Missing component name")
  else
    match body with
    | .obj kvs =>
      match dictGet kvs "data" with
      | none => .error (.assertionError "Missing data")
      | some .null => .error (.assertionError "Missing data")
      | some data =>
        if jFalsyOpt (dictGet kvs "id") then .error (.assertionError "Missing component id")
        else if jFalsy ((dictGet kvs "epoch").getD (.str "")) then
          .error (.assertionError "Missing epoch")
        else
          match validate_checksum digest kvs data with
          | .error e => .error e
          | .ok _ =>
            match (dictGet kvs "actionQueue").getD (.list []) with
            | .list entries =>
              match classifyQueue parse entries with
              | .error e => .error e
              | .ok acts =>
                .ok { body := kvs, name := component_name, data := data,
                      id := (dictGet kvs "id").getD .null,
                      epoch := (dictGet kvs "epoch").getD (.str ""),
                      key := (dictGet kvs "key").getD (.str ""),
                      hash := (dictGet kvs "hash").getD (.str ""),
                      action_queue := acts }
            | _ => .error (.pyError .typeError)
    | _ => .error (.pyError .typeError)

/-- The two body sources `__init__` chooses between by content type. -/
inductive ReqBody where
  | json (loadResult : Except Unit JValue)
  | multipart (post : List (String × String)) (files : List (String × List Nat))

/-- `ComponentRequest.__init__` (request.py lines 102-165) end to end: decode
the body (only `JSONDecodeError` is repackaged as a `UnicornViewError`), then
run `componentRequestBody`. -/
def componentRequest (digest : JValue → String) (parse : String → String)
    (loads : String → Except Unit JValue) (req : ReqBody)
    (component_name : String) : Except UErr CompReq :=
  match req with
  | .json (.error _) => .error (.unicornViewError "Body could not be parsed")
  | .json (.ok body) => componentRequestBody digest parse body component_name
  | .multipart post files =>
    match parse_multipart_data loads post files with
    | .error .jsonDecodeError => .error (.unicornViewError "Body could not be parsed")
    | .error e => .error (.pyError e)
    | .ok d => componentRequestBody digest parse (.obj d) component_name

/-- Claim-side accessor: the raw `type` field of an action entry. -/
def actionTypeOf (a : JValue) : Option JValue :=
  match a with
  | .obj kvs => dictGet kvs "type"
  | _ => none

/-- Claim-side accessor: the method-call expression `payload.name` of an
action entry, with the defaults the code applies. -/
def actionPayloadName (a : JValue) : String :=
  match a with
  | .obj kvs =>
    match (dictGet kvs "payload").getD (.obj []) with
    | .obj pkvs =>
      match (dictGet pkvs "name").getD (.str "") with
      | .str s => s
      | _ => ""
    | _ => ""
  | _ => ""

/-- Shape assumption for one action entry: it is a mapping, and when its type
is `callMethod` the payload is a mapping whose `name` is a string. -/
def wfAction : JValue → Bool
  | .obj kvs =>
    match dictGet kvs "type" with
    | some (.str s) =>
      if s = "callMethod" then
        match (dictGet kvs "payload").getD (.obj []) with
        | .obj pkvs =>
          match (dictGet pkvs "name").getD (.str "") with
          | .str _ => true
          | _ => false
        | _ => false
      else true
    | _ => true
  | _ => false

/-- A concrete stand-in for the external digest, used by witnesses. -/
def dig0 : JValue → String := fun _ => "D"

/-- A concrete stand-in for the external method-name parser, used by
witnesses. -/
def parse0 : String → String := fun s => s

/-- A concrete stand-in for the external JSON decoder, used by witnesses. -/
def loads0 : String → Except Unit JValue := fun _ => .error ()

example : parse_multipart_data loads0 [("data.items[2].x", "v")] [] =
    .ok [("items", .list [.obj [], .obj [], .obj [("x", .str "v")]])] := rfl

example : parse_multipart_data loads0 [("data.a.b", "v")] [] =
    .ok [("a", .obj [("b", .str "v")])] := rfl

example : parse_multipart_data loads0 [("data.items]2", "v")] [] =
    .ok [("items]2", .str "v")] := rfl

example : parse_multipart_data loads0 [("data.items[a]", "v")] [] =
    .error .valueError := rfl

example : parse_multipart_data loads0 [] [("data.u[0]", [7])] =
    .ok [("u[0]", .file 7)] := rfl

example : parse_multipart_data loads0 [] [("data.upload", [7, 8])] =
    .ok [("upload", .list [.file 7, .file 8])] := rfl

lemma jFalsy_str_false {s : String} (h : s ≠ "") : jFalsy (.str s) = false := by
  simp [jFalsy]
  intro hd
  exact h (String.ext (by simpa [String.toList] using hd))

lemma append_x_ne (s : String) : s ++ "x" ≠ s := by
  intro h
  have h2 := congrArg String.data h
  simp [String.data_append] at h2

lemma append_x_ne_empty (s : String) : s ++ "x" ≠ "" := by
  intro h
  have h2 := congrArg String.data h
  simp [String.data_append] at h2

/-- C1: a body whose checksum equals `digest(data)` passes checksum
validation; a body whose checksum is absent, empty, or different from
`digest(data)` (for instance `digest(data) ++ "x"`) fails with the
checksum-mismatch kind of `AssertionError` (`Missing checksum` /
`Checksum does not match`). -/
theorem C1_checksum_validation (digest : JValue → String) (body : Dict)
    (data : JValue) :
    (dictGet body "checksum" = some (.str (digest data)) → digest data ≠ "" →
      validate_checksum digest body data = .ok ()) ∧
    (dictGet body "checksum" = none →
      validate_checksum digest body data =
        .error (.assertionError "Missing checksum")) ∧
    (dictGet body "checksum" = some (.str "") →
      validate_checksum digest body data =
        .error (.assertionError "Missing checksum")) ∧
    (∀ s, dictGet body "checksum" = some (.str s) → s ≠ "" → s ≠ digest data →
      validate_checksum digest body data =
        .error (.assertionError "Checksum does not match")) ∧
    (dictGet body "checksum" = some (.str (digest data ++ "x")) →
      validate_checksum digest body data =
        .error (.assertionError "Checksum does not match")) := by
  refine ⟨?_, ?_, ?_, ?_, ?_⟩
  · intro h hne
    simp [validate_checksum, h, jFalsy_str_false hne]
  · intro h
    simp [validate_checksum, h]
  · intro h
    simp [validate_checksum, h, jFalsy]
  · intro s h hne hdiff
    simp [validate_checksum, h, jFalsy_str_false hne, hdiff]
  · intro h
    simp [validate_checksum, h, jFalsy_str_false (append_x_ne_empty (digest data)),
      append_x_ne (digest data)]

/-- Witness for C1 at a concrete body: a matching checksum passes, a
missing checksum and an appended-`x` checksum fail. -/
theorem C1_checksum_validation_witness :
    validate_checksum dig0 [("checksum", .str "D")] (.obj []) = .ok () ∧
    validate_checksum dig0 [] (.obj []) =
      .error (.assertionError "Missing checksum") ∧
    validate_checksum dig0 [("checksum", .str "Dx")] (.obj []) =
      .error (.assertionError "Checksum does not match") := by
  refine ⟨?_, ?_, ?_⟩
  · exact (C1_checksum_validation dig0 [("checksum", .str "D")] (.obj [])).1
      rfl (by decide)
  · exact (C1_checksum_validation dig0 [] (.obj [])).2.1 rfl
  · exact (C1_checksum_validation dig0 [("checksum", .str "Dx")]
      (.obj [])).2.2.2.2 rfl

lemma jFalsy_obj_of_get {kvs : Dict} {k : String} {v : JValue}
    (h : dictGet kvs k = some v) : jFalsy (.obj kvs) = false := by
  cases kvs with
  | nil => simp [dictGet] at h
  | cons hd tl => simp [jFalsy]

/-- C2: the constructor checks, in order: body decode failure, falsy body,
missing component name, missing `data`, missing `id`, missing `epoch`,
checksum failure — and reports the first failing check.  In particular a body
with neither `id` nor `epoch` gets the missing-`id` error. -/
theorem C2_validation_order (digest : JValue → String) (parse : String → String)
    (loads : String → Except Unit JValue) :
    (∀ name, componentRequest digest parse loads (.json (.error ())) name =
      .error (.unicornViewError "Body could not be parsed")) ∧
    (componentRequestBody digest parse (.obj []) "" =
      .error (.assertionError "Invalid body")) ∧
    (∀ body, jFalsy body = false →
      componentRequestBody digest parse body "" =
        .error (.assertionError "Missing component name")) ∧
    (∀ kvs name, name ≠ "" → jFalsy (.obj kvs) = false →
      dictGet kvs "data" = none →
      componentRequestBody digest parse (.obj kvs) name =
        .error (.assertionError "Missing data")) ∧
    (∀ kvs name data, name ≠ "" → dictGet kvs "data" = some data →
      data ≠ .null → jFalsyOpt (dictGet kvs "id") = true →
      componentRequestBody digest parse (.obj kvs) name =
        .error (.assertionError "Missing component id")) ∧
    (∀ kvs name data, name ≠ "" → dictGet kvs "data" = some data →
      data ≠ .null → jFalsyOpt (dictGet kvs "id") = false →
      jFalsy ((dictGet kvs "epoch").getD (.str "")) = true →
      componentRequestBody digest parse (.obj kvs) name =
        .error (.assertionError "Missing epoch")) ∧
    (∀ kvs name data e, name ≠ "" → dictGet kvs "data" = some data →
      data ≠ .null → jFalsyOpt (dictGet kvs "id") = false →
      jFalsy ((dictGet kvs "epoch").getD (.str "")) = false →
      validate_checksum digest kvs data = .error e →
      componentRequestBody digest parse (.obj kvs) name = .error e) := by
  refine ⟨?_, ?_, ?_, ?_, ?_, ?_, ?_⟩
  · intro name
    rfl
  · rfl
  · intro body hb
    simp [componentRequestBody, hb]
  · intro kvs name hn hb hd
    simp [componentRequestBody, hb, hn, hd]
  · intro kvs name data hn hd hnull hid
    have hb := jFalsy_obj_of_get hd
    cases data <;> simp_all [componentRequestBody]
  · intro kvs name data hn hd hnull hid hep
    have hb := jFalsy_obj_of_get hd
    cases data <;> simp_all [componentRequestBody]
  · intro kvs name data e hn hd hnull hid hep hck
    have hb := jFalsy_obj_of_get hd
    cases data <;> simp_all [componentRequestBody]

/-- Witness for C2 at a concrete body lacking both `id` and `epoch`: the
error reported is the missing-`id` one. -/
theorem C2_validation_order_witness :
    componentRequestBody dig0 parse0
      (.obj [("data", .obj [("a", .str "b")])]) "c" =
      .error (.assertionError "Missing component id") :=
  (C2_validation_order dig0 parse0 loads0).2.2.2.2.1
    [("data", .obj [("a", .str "b")])] "c" (.obj [("a", .str "b")])
    (by decide) rfl (fun h => JValue.noConfusion h) rfl

/-- The spec's classification rules (section 4.4) for one entry, phrased on
the raw fields: `syncInput` type gives SyncInput; `callMethod` type gives
Refresh / Reset / Toggle when the parsed bare name is the matching reserved
token and CallMethod otherwise; every other type gives the generic action. -/
def SpecClassified (parse : String → String) (a : JValue) (act : Action) : Prop :=
  (actionTypeOf a = some (.str "syncInput") → act = .syncInput a) ∧
  (actionTypeOf a = some (.str "callMethod") →
    (parse (actionPayloadName a) = "$refresh" → act = .refresh a) ∧
    (parse (actionPayloadName a) = "$reset" → act = .reset a) ∧
    (parse (actionPayloadName a) = "$toggle" → act = .toggle a) ∧
    (parse (actionPayloadName a) ≠ "$refresh" →
      parse (actionPayloadName a) ≠ "$reset" →
      parse (actionPayloadName a) ≠ "$toggle" → act = .callMethod a)) ∧
  (actionTypeOf a ≠ some (.str "syncInput") →
    actionTypeOf a ≠ some (.str "callMethod") → act = .generic a)

lemma classifyAction_ok (parse : String → String) (a : JValue)
    (h : wfAction a = true) :
    ∃ act, classifyAction parse a = .ok act ∧ SpecClassified parse a act := by
  cases a with
  | obj kvs =>
    rcases ht : dictGet kvs "type" with _ | v
    · exact ⟨.generic (.obj kvs), by simp [classifyAction, ht],
        by simp [SpecClassified, actionTypeOf, ht]⟩
    · cases v with
      | str s =>
        by_cases hs1 : s = "syncInput"
        · subst hs1
          exact ⟨.syncInput (.obj kvs), by simp [classifyAction, ht],
            by simp [SpecClassified, actionTypeOf, ht]⟩
        · by_cases hs2 : s = "callMethod"
          · subst hs2
            simp only [wfAction, ht, if_pos rfl] at h
            rcases hp : (dictGet kvs "payload").getD (.obj []) with
              _ | _ | _ | _ | _ | pkvs | _ <;> simp [hp] at h
            rcases hn : (dictGet pkvs "name").getD (.str "") with
              _ | _ | _ | nm | _ | _ | _ <;> simp [hn] at h
            have hname : actionPayloadName (.obj kvs) = nm := by
              simp [actionPayloadName, hp, hn]
            by_cases h1 : parse nm = "$refresh"
            · exact ⟨.refresh (.obj kvs),
                by simp [classifyAction, ht, hs1, hp, hn, h1],
                by simp [SpecClassified, actionTypeOf, ht, hname, h1]⟩
            · by_cases h2 : parse nm = "$reset"
              · exact ⟨.reset (.obj kvs),
                  by simp [classifyAction, ht, hs1, hp, hn, h1, h2],
                  by simp [SpecClassified, actionTypeOf, ht, hname, h1, h2]⟩
              · by_cases h3 : parse nm = "$toggle"
                · exact ⟨.toggle (.obj kvs),
                    by simp [classifyAction, ht, hs1, hp, hn, h1, h2, h3],
                    by simp [SpecClassified, actionTypeOf, ht, hname, h1, h2, h3]⟩
                · exact ⟨.callMethod (.obj kvs),
                    by simp [classifyAction, ht, hs1, hp, hn, h1, h2, h3],
                    by simp [SpecClassified, actionTypeOf, ht, hname, h1, h2, h3]⟩
          · exact ⟨.generic (.obj kvs), by simp [classifyAction, ht, hs1, hs2],
              by simp [SpecClassified, actionTypeOf, ht, hs1, hs2]⟩
      | null =>
        exact ⟨.generic (.obj kvs), by simp [classifyAction, ht],
          by simp [SpecClassified, actionTypeOf, ht]⟩
      | bool b =>
        exact ⟨.generic (.obj kvs), by simp [classifyAction, ht],
          by simp [SpecClassified, actionTypeOf, ht]⟩
      | num n =>
        exact ⟨.generic (.obj kvs), by simp [classifyAction, ht],
          by simp [SpecClassified, actionTypeOf, ht]⟩
      | list xs =>
        exact ⟨.generic (.obj kvs), by simp [classifyAction, ht],
          by simp [SpecClassified, actionTypeOf, ht]⟩
      | obj kvs2 =>
        exact ⟨.generic (.obj kvs), by simp [classifyAction, ht],
          by simp [SpecClassified, actionTypeOf, ht]⟩
      | file fid =>
        exact ⟨.generic (.obj kvs), by simp [classifyAction, ht],
          by simp [SpecClassified, actionTypeOf, ht]⟩
  | null => simp [wfAction] at h
  | bool b => simp [wfAction] at h
  | num n => simp [wfAction] at h
  | str s => simp [wfAction] at h
  | list xs => simp [wfAction] at h
  | file fid => simp [wfAction] at h

/-- C3: classifying an action queue of well-shaped entries yields exactly one
classified action per raw entry, in order, following the spec's mapping rules
for `syncInput`, `callMethod` (with the `$refresh` / `$reset` / `$toggle`
reserved names) and arbitrary other type values, never rejecting any entry. -/
theorem C3_action_classifier (parse : String → String) (queue : List JValue)
    (h : ∀ a ∈ queue, wfAction a = true) :
    ∃ acts, classifyQueue parse queue = .ok acts ∧
      acts.length = queue.length ∧
      ∀ i (hq : i < queue.length) (ha : i < acts.length),
        SpecClassified parse (queue.get ⟨i, hq⟩) (acts.get ⟨i, ha⟩) := by
  induction queue with
  | nil =>
    exact ⟨[], rfl, rfl, fun i hq => absurd hq (by simp)⟩
  | cons a rest ih =>
    obtain ⟨act, hact, hspec⟩ := classifyAction_ok parse a (h a (by simp))
    obtain ⟨acts, hacts, hlen, hall⟩ := ih (fun b hb => h b (by simp [hb]))
    refine ⟨act :: acts, ?_, ?_, ?_⟩
    · simp [classifyQueue, hact, hacts]
    · simp [hlen]
    · intro i hq ha
      cases i with
      | zero => exact hspec
      | succ j => exact hall j (by simpa using hq) (by simpa using ha)

/-- Witness for C3 at a concrete 4-entry queue mixing all variants. -/
theorem C3_action_classifier_witness :
    (∀ a ∈ ([.obj [("type", .str "syncInput")],
        .obj [("type", .str "callMethod"),
              ("payload", .obj [("name", .str "$toggle")])],
        .obj [("type", .str "callMethod"),
              ("payload", .obj [("name", .str "save")])],
        .obj [("type", .str "unknownThing")]] : List JValue),
      wfAction a = true) ∧
    ∃ acts, classifyQueue parse0
        [.obj [("type", .str "syncInput")],
         .obj [("type", .str "callMethod"),
               ("payload", .obj [("name", .str "$toggle")])],
         .obj [("type", .str "callMethod"),
               ("payload", .obj [("name", .str "save")])],
         .obj [("type", .str "unknownThing")]] = .ok acts ∧
      acts.length = 4 ∧
      ∀ i (hq : i < ([.obj [("type", .str "syncInput")],
          .obj [("type", .str "callMethod"),
                ("payload", .obj [("name", .str "$toggle")])],
          .obj [("type", .str "callMethod"),
                ("payload", .obj [("name", .str "save")])],
          .obj [("type", .str "unknownThing")]] : List JValue).length)
        (ha : i < acts.length),
        SpecClassified parse0
          (([.obj [("type", .str "syncInput")],
             .obj [("type", .str "callMethod"),
                   ("payload", .obj [("name", .str "$toggle")])],
             .obj [("type", .str "callMethod"),
                   ("payload", .obj [("name", .str "save")])],
             .obj [("type", .str "unknownThing")]] : List JValue).get ⟨i, hq⟩)
          (acts.get ⟨i, ha⟩) :=
  ⟨by decide, C3_action_classifier parse0 _ (by decide)⟩

/-- C4: a `name[index]` segment materialises (or reuses) a sequence bound to
`name`, zero-extended with empty-mapping placeholders for an intermediate
segment and null placeholders for a final segment; the single key
`data.items[2].x = v` on a tree with no `items` binding yields a 3-element
sequence of two empty mappings and one mapping with `x = v`. -/
theorem C4_index_gap_filling (loads : String → Except Unit JValue)
    (v : String) (data : Dict) (h : dictGet data "items" = none) :
    assignPath (.str v) (splitChar '.' ("data.items[2].x".toList.drop 5)) data =
      .ok (dictSet data "items"
        (.list [.obj [], .obj [], .obj [("x", .str v)]])) ∧
    parse_multipart_data loads [("data.items[2].x", v)] [] =
      .ok [("items", .list [.obj [], .obj [], .obj [("x", .str v)]])] ∧
    parse_multipart_data loads [("data.arr[2]", v)] [] =
      .ok [("arr", .list [.null, .null, .str v])] := by
  refine ⟨?_, rfl, rfl⟩
  have h2 : assignPath (.str v) (splitChar '.' ("data.items[2].x".toList.drop 5))
      data =
      (match (dictGet data "items").getD (.list []) with
       | JValue.list xs =>
         (match pyGet (extendTo xs (.obj []) 2) 2 with
          | some (.obj child) =>
            (match pySet (extendTo xs (.obj []) 2) 2
                (.obj (dictSet child "x" (.str v))) with
             | none => Except.error PyErr.typeError
             | some zs => Except.ok (dictSet data "items" (.list zs)))
          | _ => Except.error PyErr.typeError)
       | _ => Except.error PyErr.typeError) := rfl
  rw [h2, h]
  rfl

/-- Witness for C4: the gap-filling result on a tree that already holds an
unrelated key. -/
theorem C4_index_gap_filling_witness :
    parse_multipart_data loads0 [("data.items[2].x", "v")] [] =
      .ok [("items", .list [.obj [], .obj [], .obj [("x", .str "v")]])] ∧
    assignPath (.str "v") (splitChar '.' ("data.items[2].x".toList.drop 5))
      [("other", .str "1")] =
      .ok [("other", .str "1"),
           ("items", .list [.obj [], .obj [], .obj [("x", .str "v")]])] :=
  ⟨(C4_index_gap_filling loads0 "v" [] rfl).2.1,
   (C4_index_gap_filling loads0 "v" [("other", .str "1")] rfl).1⟩

/-- C5 counterexample: the malformed bracket key `data.items]2` (a `]` with
no `[`) does not raise any error — the parse succeeds, silently assigning
under the mangled plain key `items]2`. -/
theorem C5_counterexample :
    parse_multipart_data loads0 [("data.items]2", "v")] [] =
      .ok [("items]2", .str "v")] := rfl

/-- C5 (amended): a malformed segment raises only when it contains both `[`
and `]` but the text between them does not parse as an integer (a
`ValueError`); a segment missing `[` or missing `]` is silently treated as a
plain key, assigning under the mangled name. -/
theorem C5_malformed_brackets (loads : String → Except Unit JValue)
    (seg : List Char) (v : String)
    (h : seg.contains '[' = false ∨ seg.contains ']' = false) :
    parse_multipart_data loads [("data.items[a]", "v")] [] =
      .error .valueError ∧
    parse_multipart_data loads [("data.items[2", "v")] [] =
      .ok [("items[2", .str "v")] ∧
    assignPath (.str v) [seg] [] = .ok [(seg.asString, .str v)] := by
  refine ⟨rfl, rfl, ?_⟩
  have hb : segHasBrackets seg = false := by
    rcases h with h | h <;>
      simp only [segHasBrackets, h, Bool.false_and, Bool.and_false]
  simp [assignPath, hb, dictSet]

/-- Witness for C5 (amended) at the segment `items]2`. -/
theorem C5_malformed_brackets_witness :
    (("items]2".toList.contains '[' = false ∨
      "items]2".toList.contains ']' = false) ∧
     assignPath (.str "v") ["items]2".toList] [] =
       .ok [("items]2", .str "v")]) ∧
    parse_multipart_data loads0 [("data.items[a]", "v")] [] =
      .error .valueError :=
  ⟨⟨Or.inl (by decide),
    (C5_malformed_brackets loads0 "items]2".toList "v"
      (Or.inl (by decide))).2.2⟩,
   (C5_malformed_brackets loads0 "items]2".toList "v"
      (Or.inl (by decide))).1⟩

/-- C6 counterexample: an empty decoded body raises an `AssertionError`
(`Invalid body`) — the same exception class as the missing-required-field
errors and a different class from the decode failure — so the empty-body
failure is not of the decode-error kind and is not distinguishable by kind
from the validation errors. -/
theorem C6_counterexample :
    componentRequestBody dig0 parse0 (.obj []) "c" =
      .error (.assertionError "Invalid body") ∧
    componentRequest dig0 parse0 loads0 (.json (.error ())) "c" =
      .error (.unicornViewError "Body could not be parsed") ∧
    componentRequestBody dig0 parse0 (.obj [("k", .str "1")]) "c" =
      .error (.assertionError "Missing data") ∧
    UErr.sameKind (.assertionError "Invalid body")
      (.unicornViewError "Body could not be parsed") = false ∧
    UErr.sameKind (.assertionError "Invalid body")
      (.assertionError "Missing data") = true :=
  ⟨rfl, rfl, rfl, rfl, rfl⟩

/-- C6 (amended): a malformed structured-text body raises the
`UnicornViewError` decode kind; an empty decoded body raises
`AssertionError`, the same kind as the missing-required-field errors —
distinguishable from the decode error, but from the field-validation errors
only by message. -/
theorem C6_error_kinds (digest : JValue → String) (parse : String → String)
    (loads : String → Except Unit JValue) (name : String) :
    componentRequest digest parse loads (.json (.error ())) name =
      .error (.unicornViewError "Body could not be parsed") ∧
    componentRequestBody digest parse (.obj []) name =
      .error (.assertionError "Invalid body") ∧
    (name ≠ "" → componentRequestBody digest parse (.obj [("k", .str "1")]) name =
      .error (.assertionError "Missing data")) ∧
    UErr.sameKind (.assertionError "Invalid body")
      (.assertionError "Missing data") = true ∧
    UErr.sameKind (.unicornViewError "Body could not be parsed")
      (.assertionError "Invalid body") = false := by
  refine ⟨rfl, rfl, ?_, rfl, rfl⟩
  intro hn
  have e : dictGet [("k", JValue.str "1")] "data" = none := rfl
  simp [componentRequestBody, hn, e, jFalsy]

/-- Witness for C6 (amended) at a concrete component name. -/
theorem C6_error_kinds_witness :
    componentRequestBody dig0 parse0 (.obj [("k", .str "1")]) "c" =
      .error (.assertionError "Missing data") :=
  (C6_error_kinds dig0 parse0 loads0 "c").2.2.1 (by decide)

/-- C7 counterexample: the files pass does not cover bracket-indexed segments
the way the field pass does — a bracket-indexed file key is stored under the
literal mangled key, while the same key in the field pass builds a sequence
bound to the base name. -/
theorem C7_counterexample :
    parse_multipart_data loads0 [] [("data.u[0]", [7])] =
      .ok [("u[0]", .file 7)] ∧
    parse_multipart_data loads0 [("data.u[0]", "s")] [] =
      .ok [("u", .list [.str "s"])] ∧
    dictGet [("u[0]", JValue.file 7)] "u" = none :=
  ⟨rfl, rfl, rfl⟩

/-- C7 (amended): the files pass splits `data.`-prefixed keys on dots and
merges the results into the same nested structure as the field pass, storing
a single file as a scalar and several files as an ordered sequence — but it
has no bracket handling: a bracket-indexed segment is used as a literal key. -/
theorem C7_files_pass (loads : String → Except Unit JValue) (f g : Nat) :
    parse_multipart_data loads [] [("data.upload", [f])] =
      .ok [("upload", .file f)] ∧
    parse_multipart_data loads [] [("data.upload", [f, g])] =
      .ok [("upload", .list [.file f, .file g])] ∧
    parse_multipart_data loads [] [("data.a.b", [f])] =
      .ok [("a", .obj [("b", .file f)])] ∧
    parse_multipart_data loads [("data.x", "1")] [("data.upload", [f])] =
      .ok [("x", .str "1"), ("upload", .file f)] ∧
    parse_multipart_data loads [] [("data.u[0]", [f])] =
      .ok [("u[0]", .file f)] :=
  ⟨rfl, rfl, rfl, rfl, rfl⟩

lemma componentRequestBody_ok {digest : JValue → String}
    {parse : String → String} {body : JValue} {name : String} {cr : CompReq}
    (h : componentRequestBody digest parse body name = .ok cr) :
    validate_checksum digest cr.body cr.data = .ok () := by
  unfold componentRequestBody at h
  repeat' split at h
  all_goals try exact Except.noConfusion h
  rename_i u hval y entries hgetd ex acts hcq
  cases h
  exact hval

/-- C8: checksum validation runs before any action is classified: a
construction that returns a `ComponentRequest` has passed the checksum check
on the stored body and data, and whenever every earlier check passes but the
checksum check fails, the constructor stops with that very error, producing
no classified actions. -/
theorem C8_checksum_before_actions (digest : JValue → String)
    (parse : String → String) (loads : String → Except Unit JValue)
    (req : ReqBody) (name : String) :
    (∀ cr, componentRequest digest parse loads req name = .ok cr →
      validate_checksum digest cr.body cr.data = .ok ()) ∧
    (∀ kvs data e, name ≠ "" → dictGet kvs "data" = some data →
      data ≠ .null → jFalsyOpt (dictGet kvs "id") = false →
      jFalsy ((dictGet kvs "epoch").getD (.str "")) = false →
      validate_checksum digest kvs data = .error e →
      componentRequestBody digest parse (.obj kvs) name = .error e) := by
  constructor
  · intro cr h
    cases req with
    | json lr =>
      cases lr with
      | error u => exact Except.noConfusion h
      | ok body => exact componentRequestBody_ok h
    | multipart post files =>
      rw [show componentRequest digest parse loads (.multipart post files) name =
          (match parse_multipart_data loads post files with
           | .error .jsonDecodeError =>
             .error (.unicornViewError "Body could not be parsed")
           | .error e => .error (.pyError e)
           | .ok d => componentRequestBody digest parse (.obj d) name)
          from rfl] at h
      split at h
      · exact Except.noConfusion h
      · exact Except.noConfusion h
      · exact componentRequestBody_ok h
  · intro kvs data e hn hd hnull hid hep hck
    have hb := jFalsy_obj_of_get hd
    cases data <;> simp_all [componentRequestBody]

/-- Witness for C8: with every earlier check passing and no checksum in the
body, construction stops with the missing-checksum error. -/
theorem C8_checksum_before_actions_witness :
    componentRequestBody dig0 parse0
      (.obj [("data", .obj []), ("id", .str "1"), ("epoch", .str "2")]) "c" =
      .error (.assertionError "Missing checksum") :=
  (C8_checksum_before_actions dig0 parse0 loads0
      (.json (.ok (.obj [("data", .obj []), ("id", .str "1"),
        ("epoch", .str "2")]))) "c").2
    [("data", .obj []), ("id", .str "1"), ("epoch", .str "2")] (.obj [])
    (.assertionError "Missing checksum") (by decide) rfl
    (fun h => JValue.noConfusion h) rfl rfl rfl

/-- C9: a body with no `actionQueue` binding at all is accepted — when every
validation check passes, construction succeeds and the classified action
sequence is empty. -/
theorem C9_missing_actionQueue (digest : JValue → String)
    (parse : String → String) (kvs : Dict) (name : String) (data : JValue)
    (hn : name ≠ "") (hd : dictGet kvs "data" = some data)
    (hnull : data ≠ .null) (hid : jFalsyOpt (dictGet kvs "id") = false)
    (hep : jFalsy ((dictGet kvs "epoch").getD (.str "")) = false)
    (hck : validate_checksum digest kvs data = .ok ())
    (haq : dictGet kvs "actionQueue" = none) :
    ∃ cr, componentRequestBody digest parse (.obj kvs) name = .ok cr ∧
      cr.action_queue = [] := by
  have hb := jFalsy_obj_of_get hd
  cases data with
  | null => exact absurd rfl hnull
  | bool b =>
    simp [componentRequestBody, hb, hn, hd, hid, hep, hck, haq, classifyQueue]
  | num n =>
    simp [componentRequestBody, hb, hn, hd, hid, hep, hck, haq, classifyQueue]
  | str s =>
    simp [componentRequestBody, hb, hn, hd, hid, hep, hck, haq, classifyQueue]
  | list xs =>
    simp [componentRequestBody, hb, hn, hd, hid, hep, hck, haq, classifyQueue]
  | obj kvs2 =>
    simp [componentRequestBody, hb, hn, hd, hid, hep, hck, haq, classifyQueue]
  | file fid =>
    simp [componentRequestBody, hb, hn, hd, hid, hep, hck, haq, classifyQueue]

/-- Witness for C9 at a concrete body with no `actionQueue` key. -/
theorem C9_missing_actionQueue_witness :
    ∃ cr, componentRequestBody dig0 parse0
        (.obj [("data", .obj [("a", .str "b")]), ("id", .str "1"),
          ("epoch", .str "2"), ("checksum", .str "D")]) "c" = .ok cr ∧
      cr.action_queue = [] :=
  C9_missing_actionQueue dig0 parse0
    [("data", .obj [("a", .str "b")]), ("id", .str "1"),
     ("epoch", .str "2"), ("checksum", .str "D")] "c" (.obj [("a", .str "b")])
    (by decide) rfl (fun h => JValue.noConfusion h) rfl rfl rfl rfl

/-- C10: the required-field checks are asymmetric — `data` is rejected only
when absent or null, so a present-but-empty mapping passes validation and
checksum validation is then attempted on it, whereas `id` and `epoch` are
rejected whenever falsy, including the empty string. -/
theorem C10_asymmetric_emptiness (digest : JValue → String)
    (parse : String → String) :
    (digest (.obj []) ≠ "" →
      ∃ cr, componentRequestBody digest parse
          (.obj [("data", .obj []), ("id", .str "1"), ("epoch", .str "2"),
            ("checksum", .str (digest (.obj [])))]) "c" = .ok cr ∧
        cr.data = .obj []) ∧
    (∀ s, s ≠ "" → s ≠ digest (.obj []) →
      componentRequestBody digest parse
        (.obj [("data", .obj []), ("id", .str "1"), ("epoch", .str "2"),
          ("checksum", .str s)]) "c" =
        .error (.assertionError "Checksum does not match")) ∧
    (componentRequestBody digest parse
        (.obj [("data", .obj []), ("id", .str ""), ("epoch", .str "2"),
          ("checksum", .str "x")]) "c" =
        .error (.assertionError "Missing component id")) ∧
    (componentRequestBody digest parse
        (.obj [("data", .obj []), ("id", .str "1"), ("epoch", .str ""),
          ("checksum", .str "x")]) "c" =
        .error (.assertionError "Missing epoch")) ∧
    (∀ kvs name, name ≠ "" → dictGet kvs "data" = some (.obj []) →
      dictGet kvs "id" = some (.str "") →
      componentRequestBody digest parse (.obj kvs) name =
        .error (.assertionError "Missing component id")) := by
  refine ⟨?_, ?_, rfl, rfl, ?_⟩
  · intro hne
    have hck : validate_checksum digest
        [("data", .obj []), ("id", .str "1"), ("epoch", .str "2"),
         ("checksum", .str (digest (.obj [])))] (.obj []) = .ok () := by
      have e : dictGet
          [("data", .obj []), ("id", .str "1"), ("epoch", .str "2"),
           ("checksum", .str (digest (.obj [])))] "checksum" =
          some (.str (digest (.obj []))) := rfl
      simp [validate_checksum, e, jFalsy_str_false hne]
    have e2 : componentRequestBody digest parse
        (.obj [("data", .obj []), ("id", .str "1"), ("epoch", .str "2"),
          ("checksum", .str (digest (.obj [])))]) "c" =
        (match validate_checksum digest
            [("data", .obj []), ("id", .str "1"), ("epoch", .str "2"),
             ("checksum", .str (digest (.obj [])))] (.obj []) with
         | .error e => .error e
         | .ok _ => .ok { body := [("data", .obj []), ("id", .str "1"),
                            ("epoch", .str "2"),
                            ("checksum", .str (digest (.obj [])))],
                          name := "c", data := .obj [], id := .str "1",
                          epoch := .str "2", key := .str "", hash := .str "",
                          action_queue := [] }) := rfl
    rw [e2, hck]
    exact ⟨_, rfl, rfl⟩
  · intro s hs0 hsd
    have hck : validate_checksum digest
        [("data", .obj []), ("id", .str "1"), ("epoch", .str "2"),
         ("checksum", .str s)] (.obj []) =
        .error (.assertionError "Checksum does not match") := by
      have e : dictGet
          [("data", .obj []), ("id", .str "1"), ("epoch", .str "2"),
           ("checksum", .str s)] "checksum" = some (.str s) := rfl
      simp [validate_checksum, e, jFalsy_str_false hs0, hsd]
    have e2 : componentRequestBody digest parse
        (.obj [("data", .obj []), ("id", .str "1"), ("epoch", .str "2"),
          ("checksum", .str s)]) "c" =
        (match validate_checksum digest
            [("data", .obj []), ("id", .str "1"), ("epoch", .str "2"),
             ("checksum", .str s)] (.obj []) with
         | .error e => .error e
         | .ok _ => .ok { body := [("data", .obj []), ("id", .str "1"),
                            ("epoch", .str "2"), ("checksum", .str s)],
                          name := "c", data := .obj [], id := .str "1",
                          epoch := .str "2", key := .str "", hash := .str "",
                          action_queue := [] }) := rfl
    rw [e2, hck]
  · intro kvs name hn hd hid
    have hb := jFalsy_obj_of_get hd
    have hemp : jFalsyOpt (some (JValue.str "")) = true := rfl
    simp [componentRequestBody, hb, hn, hd, hid, hemp]

/-- Witness for C10: the empty-mapping `data` passes and checksum validation
runs on it; an empty-string `id` is rejected. -/
theorem C10_asymmetric_emptiness_witness :
    (∃ cr, componentRequestBody dig0 parse0
        (.obj [("data", .obj []), ("id", .str "1"), ("epoch", .str "2"),
          ("checksum", .str (dig0 (.obj [])))]) "c" = .ok cr ∧
      cr.data = .obj []) ∧
    componentRequestBody dig0 parse0
      (.obj [("data", .obj []), ("id", .str "1"), ("epoch", .str "2"),
        ("checksum", .str "nope")]) "c" =
      .error (.assertionError "Checksum does not match") ∧
    componentRequestBody dig0 parse0
      (.obj [("data", .obj []), ("id", .str ""), ("epoch", .str "2"),
        ("checksum", .str "x")]) "c" =
      .error (.assertionError "Missing component id") :=
  ⟨(C10_asymmetric_emptiness dig0 parse0).1 (by decide),
   (C10_asymmetric_emptiness dig0 parse0).2.1 "nope" (by decide) (by decide),
   (C10_asymmetric_emptiness dig0 parse0).2.2.1⟩

end Unicorn
